import Mathlib

/-!
# WaSonar, `src/commands/profile.js`

A shallow embedding of the `profile` command handler and of its helper
`downloadFile`.

* The promise of lines 19-24 (wait for the connection) is a small state machine:
  the executor runs once, then every event emitted on `sock.ev` runs the
  listeners registered for its name.
* `downloadFile` (lines 108-130) is written in continuation style, one Lean
  function per callback of the source.
* `profile` (lines 10-106) threads a file system and a log of the calls it makes
  to the socket, and ends in the status handed to `process.exit`.

Everything owned by Node or by the WhatsApp library (the answers of the socket,
the replies of the network, the behaviour of the disk, `path.join`, the clock)
is an explicit parameter; calls that can throw or emit 'error' do so when the
surroundings say so.
-/

namespace WaSonar

/-! ## Promises and the event stream -/

/-- Error values (whatever a rejected call or an 'error' event carries). -/
abbrev Err := String

/-- Settlement state of a promise without payload. `resolve` and `reject` only
act on a pending promise. -/
inductive PromiseState
  | pending
  | resolved
  | rejected (e : Err)
  deriving DecidableEq, Repr

/-- The `resolve` function of a promise: a settled promise stays as it is. -/
def PromiseState.resolve : PromiseState → PromiseState
  | .pending => .resolved
  | p => p

/-- The `reject` function of a promise: a settled promise stays as it is. -/
def PromiseState.reject (e : Err) : PromiseState → PromiseState
  | .pending => .rejected e
  | p => p

/-- Payload of a 'connection.update' event; only the field the source reads,
`u.connection`, which may be missing. -/
structure ConnectionUpdate where
  connection : Option String
  deriving DecidableEq, Repr

/-- One emission on `sock.ev`: the event name and its payload. -/
structure Emission where
  name : String
  update : ConnectionUpdate
  deriving DecidableEq, Repr

/-- Listeners found on `sock.ev`. `foreign` stands for a listener registered by
other code (the library itself); `resolveOnOpen` is the arrow function of
lines 21-23. -/
inductive Listener
  | foreign (id : Nat)
  | resolveOnOpen
  deriving DecidableEq, Repr

/-- The socket handle as `profile` receives it: the flag `sock.ws.isOpen` and
the registrations found on `sock.ev` at that moment (event name and an identity
for the listener), oldest first. -/
structure Sock where
  wsIsOpen : Bool
  listeners : List (String × Nat)
  deriving DecidableEq, Repr

/-- State of the readiness wait: its promise and the registrations on
`sock.ev`, oldest first. -/
structure WaitState where
  promise : PromiseState
  listeners : List (String × Listener)
  deriving DecidableEq, Repr

/-- The registrations the handle came with, seen as listeners. -/
def Sock.foreignListeners (s : Sock) : List (String × Listener) :=
  s.listeners.map (fun r => (r.1, Listener.foreign r.2))

/-- Registration `sock.ev.on(name, l)`: appended after the existing listeners. -/
def WaitState.on (st : WaitState) (name : String) (l : Listener) : WaitState :=
  { st with listeners := st.listeners ++ [(name, l)] }

/-- Executor of the promise of lines 19-24, run when the promise is built:
`if (sock.ws.isOpen) return resolve(); sock.ev.on('connection.update', ...)`. -/
def waitForConnection (sock : Sock) : WaitState :=
  let st : WaitState := { promise := .pending, listeners := sock.foreignListeners }
  if sock.wsIsOpen then
    { st with promise := st.promise.resolve }
  else
    st.on "connection.update" .resolveOnOpen

/-- Body of one listener applied to a payload. Lines 21-23 for `resolveOnOpen`:
`if (u.connection === 'open') resolve()`. A foreign listener has no access to
`resolve` and leaves the wait untouched. -/
def runListener (l : Listener) (u : ConnectionUpdate) (st : WaitState) : WaitState :=
  match l with
  | .foreign _ => st
  | .resolveOnOpen =>
    if u.connection = some "open" then { st with promise := st.promise.resolve } else st

/-- Calls `ls` in order on the emission `e`, skipping those registered under
another name. -/
def runListeners (e : Emission) : List (String × Listener) → WaitState → WaitState
  | [], st => st
  | (n, l) :: ls, st =>
    runListeners e ls (if n = e.name then runListener l e.update st else st)

/-- Emission of `e` on `sock.ev`: the listeners registered at that moment are
called in registration order. -/
def emit (st : WaitState) (e : Emission) : WaitState :=
  runListeners e st.listeners st

/-- A run of emissions, oldest first. -/
def emitAll (st : WaitState) (es : List Emission) : WaitState :=
  es.foldl emit st

/-- The emission is a 'connection.update' whose `connection` is 'open'. -/
def Emission.isOpen (e : Emission) : Bool :=
  e.name == "connection.update" && e.update.connection == some "open"

/-! ## The file system and the network -/

/-- Raw bytes of a response body or of a file. -/
abbrev Bytes := List Nat

/-- A JavaScript value that is `null`, `undefined` or a string. -/
inductive JsStr
  | null
  | undefined
  | str (s : String)
  deriving DecidableEq, Repr

/-- JavaScript truthiness of such a value: only a non-empty string is truthy. -/
def JsStr.truthy : JsStr → Bool
  | .str s => s != ""
  | _ => false

/-- The object literal `profileData` of lines 73-79. -/
structure ProfileData where
  number : String
  jid : String
  status : JsStr
  profilePicUrl : JsStr
  fetchedAt : String
  deriving DecidableEq, Repr

/-- What a file holds: `json d` is the text `JSON.stringify(d, null, 2)`, `raw b`
the bytes that went through a write stream. -/
inductive FileContent
  | json (d : ProfileData)
  | raw (b : Bytes)
  deriving DecidableEq, Repr

/-- Node's `fs` module over a disk whose states are the values of `σ`. Nothing
is assumed about how the disk behaves: every call that changes it answers with
the error it fails with, if it fails, and with the state it leaves.

* `existsSync`: the answer of `fs.existsSync(p)`;
* `mkdirSync`: `fs.mkdirSync(p, { recursive: true })`, which may throw;
* `writeFileSync`: `fs.writeFileSync(p, text)`, which may throw;
* `openStream`: the opening of the file behind `fs.createWriteStream(p)`; on
  failure the stream emits 'error';
* `writeStream`: the bytes piped into the stream on `p` going to the file; on
  failure the stream emits 'error' and never 'finish';
* `readFile`: what a reader finds at `p` (used to look at a result only). -/
structure Disk (σ : Type) where
  existsSync : σ → String → Bool
  mkdirSync : σ → String → Option Err × σ
  writeFileSync : σ → String → FileContent → Option Err × σ
  openStream : σ → String → Option Err × σ
  writeStream : σ → String → Bytes → Option Err × σ
  readFile : σ → String → Option FileContent

/-- A file system: some disk together with the state it is in. -/
structure FS where
  σ : Type
  disk : Disk σ
  state : σ

/-- The call `fs.existsSync(p)`. -/
def FS.existsSync (fs : FS) (p : String) : Bool :=
  fs.disk.existsSync fs.state p

/-- The call `fs.mkdirSync(p, { recursive: true })`: the error thrown, if any,
and the file system left. -/
def FS.mkdirSync (fs : FS) (p : String) : Option Err × FS :=
  ((fs.disk.mkdirSync fs.state p).1, { fs with state := (fs.disk.mkdirSync fs.state p).2 })

/-- The call `fs.writeFileSync(p, c)`: the error thrown, if any, and the file
system left. -/
def FS.writeFileSync (fs : FS) (p : String) (c : FileContent) : Option Err × FS :=
  ((fs.disk.writeFileSync fs.state p c).1,
    { fs with state := (fs.disk.writeFileSync fs.state p c).2 })

/-- The opening of the file of a write stream on `p`: the 'error' emitted, if
any, and the file system left. -/
def FS.openStream (fs : FS) (p : String) : Option Err × FS :=
  ((fs.disk.openStream fs.state p).1, { fs with state := (fs.disk.openStream fs.state p).2 })

/-- The writing of piped bytes through the stream on `p`: the 'error' emitted,
if any, and the file system left. -/
def FS.writeStream (fs : FS) (p : String) (b : Bytes) : Option Err × FS :=
  ((fs.disk.writeStream fs.state p b).1,
    { fs with state := (fs.disk.writeStream fs.state p b).2 })

/-- What a reader finds at `p`. -/
def FS.readFile (fs : FS) (p : String) : Option FileContent :=
  fs.disk.readFile fs.state p

/-- An `IncomingMessage` as far as `downloadFile` reads it: the status code, the
`location` header (absent or a string) and the bytes of its body. -/
structure Response where
  statusCode : Nat
  location : Option String
  body : Bytes
  deriving DecidableEq, Repr

/-- What one call of `https.get` comes to: the call itself throws (a target that
is no absolute `https:` URL), or the request is issued and then emits 'error',
or is answered by a response whose body arrives in full, or nothing ever
happens. An event named here is one the running process lives to see. -/
inductive NetReply
  | throws (e : Err)
  | error (e : Err)
  | response (r : Response)
  | silent
  deriving DecidableEq, Repr

/-- The network: the reply to the `i`-th call of `https.get` (counted from 0)
for a target. The target is the first argument of the call, `none` when the
source passes an absent `location` header. -/
abbrev Net := Nat → Option String → NetReply

/-- State of one `downloadFile` call: its promise, the targets of the GET
requests issued so far (oldest first), whether the file behind the stream `file`
has been opened, the bytes the stream has written, whether `file.close()` ran,
the first exception or 'error' event that nothing handles (Node ends the process
on it), and the file system. -/
structure DlState where
  promise : PromiseState
  requests : List (Option String)
  opened : Bool
  written : Bytes
  closed : Bool
  uncaught : Option Err
  fs : FS

/-- The call `resolve()` of lines 118 and 125. -/
def DlState.resolve (s : DlState) : DlState :=
  { s with promise := s.promise.resolve }

/-- The function `reject` handed to `.on('error', reject)`, lines 120 and 128;
also what the promise does with an exception thrown inside its executor. -/
def DlState.reject (e : Err) (s : DlState) : DlState :=
  { s with promise := s.promise.reject e }

/-- An exception thrown inside a callback, or an 'error' event on an emitter
without 'error' listener: nothing in lines 108-130 handles it. -/
def DlState.die (e : Err) (s : DlState) : DlState :=
  match s.uncaught with
  | some _ => s
  | none => { s with uncaught := some e }

/-- The end of the opening that `fs.createWriteStream(dest)` (line 110) starts.
The call itself only builds the stream; the file is opened afterwards, and a
failure is an 'error' event on `file`, which has no 'error' listener. -/
def openFile (dest : String) (s : DlState) : DlState :=
  match s.fs.openStream dest with
  | (none, fs1) => { s with opened := true, fs := fs1 }
  | (some e, fs1) => DlState.die e { s with fs := fs1 }

/-- The listener of 'finish', lines 116-119 and 123-126:
`file.close(); resolve();`. -/
def onFinish (s : DlState) : DlState :=
  DlState.resolve { s with closed := true }

/-- The pair `res.pipe(file); file.on('finish', ...)`. On an open stream the
body goes to the file; when that works the stream ends with the response and
emits 'finish', otherwise it emits 'error' (no listener) and no 'finish'. A
stream that could not be opened takes nothing and never finishes. -/
def pipeToFile (dest : String) (res : Response) (s : DlState) : DlState :=
  if s.opened then
    match s.fs.writeStream dest res.body with
    | (none, fs1) => onFinish { s with written := s.written ++ res.body, fs := fs1 }
    | (some e, fs1) => DlState.die e { s with fs := fs1 }
  else s

/-- The call `https.get(target, onResponse).on('error', onError)` as the `i`-th
call. When the call throws, `onThrow` says where the exception lands. Otherwise
the request is issued; `ready` is what has come to an end by the time the
request emits its event. With an absent target Node takes the second argument
for its options and registers no 'response' listener, so a response runs no
callback; the 'error' listener is registered all the same. -/
def httpsGet (net : Net) (i : Nat) (target : Option String)
    (onResponse : Response → DlState → DlState) (onError : Err → DlState → DlState)
    (onThrow : Err → DlState → DlState) (ready : DlState → DlState)
    (s : DlState) : DlState :=
  let s1 := ready { s with requests := s.requests ++ [target] }
  match net i target with
  | .throws e => onThrow e s
  | .error e => onError e s1
  | .response r => if target.isSome then onResponse r s1 else s1
  | .silent => s1

/-- The function `downloadFile(url, dest)` of lines 108-130, started on the
file system `fs`. An exception of the outer `https.get` (line 111) is thrown
inside the executor, before the file behind the stream is opened, and rejects
the promise; one of the inner `https.get` (line 114) is thrown inside a callback
and handled by nothing. -/
def downloadFile (net : Net) (url dest : String) (fs : FS) : DlState :=
  let s0 : DlState :=
    { promise := .pending, requests := [], opened := false, written := [],
      closed := false, uncaught := none, fs := fs }
  httpsGet net 0 (some url)
    (fun response s =>
      if response.statusCode = 302 ∨ response.statusCode = 301 then
        httpsGet net 1 response.location (fun res s2 => pipeToFile dest res s2)
          DlState.reject DlState.die (fun s2 => s2) s
      else
        pipeToFile dest response s)
    DlState.reject DlState.reject (openFile dest) s0

/-! ## The command `profile` -/

/-- The options bag of the command; `output` is absent or a string. -/
structure Options where
  output : Option String
  deriving DecidableEq, Repr

/-- Truthiness of `options.output` (line 70): the directory to write to when the
option is a non-empty string. -/
def Options.outputDir (o : Options) : Option String :=
  match o.output with
  | some out => if out = "" then none else some out
  | none => none

/-- One entry of the list `sock.onWhatsApp(jid)` yields: the truthiness of its
`exists` field (`existsField` here, the word being reserved) and its `jid`
field. -/
structure ExistsEntry where
  existsField : Bool
  jid : String
  deriving DecidableEq, Repr

/-- The object `sock.fetchStatus(jid)` yields, with its `status` field. -/
structure StatusResult where
  status : Option String
  deriving DecidableEq, Repr

/-- Calls the command makes, in the order it makes them: those to the socket,
those that change the file system, and the one to `downloadFile`. -/
inductive Call
  | onWhatsApp (jid : String)
  | fetchStatus (jid : String)
  | profilePictureUrl (jid : String) (type : String)
  | mkdirSync (p : String)
  | writeFileSync (p : String) (c : FileContent)
  | downloadFile (url dest : String)
  deriving DecidableEq, Repr

/-- Everything `profile` is handed by its surroundings.

* `checkAuth`: `checkAuth()` of `lib/utils.js` either returns (`none`) or ends
  the process with a status;
* `connectToWhatsApp`: the socket, or the error the call is rejected with;
* `emissions`: what `sock.ev` emits once the wait of lines 19-24 has started;
* `jidNormalizedUser`: the library function of that name;
* `onWhatsApp`, `fetchStatus`, `profilePictureUrl`: the answers of the socket, an
  error when the call throws;
* `now`: the text `new Date().toISOString()` gives at line 78;
* `pathJoin`: Node's `path.join` on two strings;
* `net`: the network `downloadFile` talks to. -/
structure Env where
  checkAuth : Option Nat
  connectToWhatsApp : Except Err Sock
  emissions : List Emission
  jidNormalizedUser : String → String
  onWhatsApp : String → Except Err (List ExistsEntry)
  fetchStatus : String → Except Err (Option StatusResult)
  profilePictureUrl : String → String → Except Err (Option String)
  now : String
  pathJoin : String → String → String
  net : Net

/-- Line 28: the identifier the socket is asked about. -/
def Env.jid (env : Env) (number : String) : String :=
  env.jidNormalizedUser (number ++ "@s.whatsapp.net")

/-- Line 82: the path of the JSON file in the output directory `out`. -/
def Env.jsonPath (env : Env) (out number : String) : String :=
  env.pathJoin out ("profile-" ++ number ++ ".json")

/-- Line 89: the path of the picture in the output directory `out`. -/
def Env.picPath (env : Env) (out number : String) : String :=
  env.pathJoin out ("profile-" ++ number ++ ".jpg")

/-- Outcome of one run of the command: the status the process ends with
(`none` when the run waits forever on a promise), the exception or 'error'
event nothing handled when that is what ended it (Node then ends the process
with status 1), the file system it leaves and the calls it made. -/
structure Run where
  exit : Option Nat
  uncaught : Option Err := none
  fs : FS
  calls : List Call

/-- Lines 38-44: `status` stays `null` when the call throws, and
`statusResult?.status || null` otherwise. -/
def statusOf : Except Err (Option StatusResult) → JsStr
  | .error _ => .null
  | .ok none => .null
  | .ok (some r) =>
    match r.status with
    | some t => if t = "" then .null else .str t
    | none => .null

/-- Lines 47-52: `profilePicUrl` stays `null` when the call throws, and is the
value the call yields otherwise. -/
def profilePicUrlOf : Except Err (Option String) → JsStr
  | .error _ => .null
  | .ok none => .undefined
  | .ok (some u) => .str u

/-- Lines 86-97 and 100: the picture is downloaded when `profilePicUrl` is
truthy. Once the promise of `downloadFile` is settled the run goes on at once: a
rejection is caught (line 94) and the process exits with 0 either way. While the
promise is pending the run waits, and ends with it when something in the
download is handled by nothing. -/
def savePicture (env : Env) (number out : String) (profilePicUrl : JsStr)
    (fs : FS) (calls : List Call) : Run :=
  match profilePicUrl with
  | .str url =>
    if url = "" then { exit := some 0, fs := fs, calls := calls }
    else
      let d := downloadFile env.net url (env.picPath out number) fs
      let calls1 := calls ++ [Call.downloadFile url (env.picPath out number)]
      match d.promise with
      | .resolved => { exit := some 0, fs := d.fs, calls := calls1 }
      | .rejected _ => { exit := some 0, fs := d.fs, calls := calls1 }
      | .pending =>
        match d.uncaught with
        | some e => { exit := some 1, uncaught := some e, fs := d.fs, calls := calls1 }
        | none => { exit := none, fs := d.fs, calls := calls1 }
  | _ => { exit := some 0, fs := fs, calls := calls }

/-- Line 71: `if (!fs.existsSync(out)) fs.mkdirSync(out, { recursive: true })`:
the error thrown, if any, the file system left and the call made. -/
def ensureDir (out : String) (fs : FS) : Option Err × FS × List Call :=
  if fs.existsSync out then (none, fs, [])
  else ((fs.mkdirSync out).1, (fs.mkdirSync out).2, [Call.mkdirSync out])

/-- The record of lines 73-79. -/
def profileDataOf (env : Env) (number : String) (entry : ExistsEntry)
    (status profilePicUrl : JsStr) : ProfileData :=
  { number := number, jid := entry.jid, status := status,
    profilePicUrl := profilePicUrl, fetchedAt := env.now }

/-- Lines 69-100: with an output directory, see that it exists, write the JSON
file and then see to the picture; without one, exit with 0. An exception of
`mkdirSync` or `writeFileSync` lands in the `catch` of line 102, which exits
with 1. -/
def saveOutput (env : Env) (number : String) (options : Options) (entry : ExistsEntry)
    (status profilePicUrl : JsStr) (fs : FS) (calls : List Call) : Run :=
  match options.outputDir with
  | none => { exit := some 0, fs := fs, calls := calls }
  | some out =>
    match ensureDir out fs with
    | (some _, fs1, cs) => { exit := some 1, fs := fs1, calls := calls ++ cs }
    | (none, fs1, cs) =>
      let text := FileContent.json (profileDataOf env number entry status profilePicUrl)
      let calls2 := calls ++ cs ++ [Call.writeFileSync (env.jsonPath out number) text]
      match fs1.writeFileSync (env.jsonPath out number) text with
      | (some _, fs2) => { exit := some 1, fs := fs2, calls := calls2 }
      | (none, fs2) => savePicture env number out profilePicUrl fs2 calls2

/-- Lines 27-100, run once the connection is ready. A throwing `onWhatsApp`
reaches the `catch` of line 102, as does an answer that is no list. -/
def profileConnected (env : Env) (number : String) (options : Options) (fs : FS) : Run :=
  let jid := env.jid number
  let calls0 := [Call.onWhatsApp jid]
  match env.onWhatsApp jid with
  | .error _ => { exit := some 1, fs := fs, calls := calls0 }
  | .ok entries =>
    match entries.head? with
    | none => { exit := some 1, fs := fs, calls := calls0 }
    | some entry =>
      if !entry.existsField then { exit := some 1, fs := fs, calls := calls0 }
      else
        let status := statusOf (env.fetchStatus jid)
        let profilePicUrl := profilePicUrlOf (env.profilePictureUrl jid "image")
        let calls1 := calls0 ++ [Call.fetchStatus jid, Call.profilePictureUrl jid "image"]
        saveOutput env number options entry status profilePicUrl fs calls1

/-- The function `profile(number, options)` of lines 10-106, started on the file
system `fs`. The wait of lines 19-24 is over when its promise is resolved by the
executor or by one of the emissions; otherwise the run never gets further. -/
def profile (env : Env) (number : String) (options : Options) (fs : FS) : Run :=
  match env.checkAuth with
  | some code => { exit := some code, fs := fs, calls := [] }
  | none =>
    match env.connectToWhatsApp with
    | .error _ => { exit := some 1, fs := fs, calls := [] }
    | .ok sock =>
      if (emitAll (waitForConnection sock) env.emissions).promise = .resolved then
        profileConnected env number options fs
      else
        { exit := none, fs := fs, calls := [] }

/-! ## Sample surroundings -/

/-- A network that answers the first request with a plain 200. -/
def directNet : Net := fun i _ =>
  if i = 0 then .response ⟨200, none, [137, 80, 78]⟩ else .silent

/-- A network whose first answer is a 302 to a second URL that serves a body. -/
def redirectNet : Net := fun i t =>
  if i = 0 then .response ⟨302, some "https://cdn.example/pic", [60, 104]⟩
  else if t = some "https://cdn.example/pic" then .response ⟨200, none, [255, 216, 255]⟩
  else .error "ECONNREFUSED"

/-- A network whose first answer is a 301 to a URL that answers with a 302. -/
def doubleRedirectNet : Net := fun i _ =>
  if i = 0 then .response ⟨301, some "https://a.example/1", [1]⟩
  else .response ⟨302, some "https://a.example/2", [2, 2]⟩

/-- A network whose first answer is a 302 and whose second request fails. -/
def redirectThenFailNet : Net := fun i _ =>
  if i = 0 then .response ⟨302, some "https://a.example/1", [1]⟩
  else .error "ECONNRESET"

/-- State of a small disk kept in memory: the directories, the files with their
content (the first entry for a path is the current one) and the paths at which
every change is refused. -/
structure MemDisk where
  dirs : List String
  files : List (String × FileContent)
  refused : List String
  deriving DecidableEq, Repr

/-- The calls of `fs` on the disk in memory: a change at a refused path fails
with EACCES and leaves the disk as it is, any other change is carried out. -/
def memDisk : Disk MemDisk :=
  { existsSync := fun s p => s.dirs.contains p || (s.files.lookup p).isSome
    mkdirSync := fun s p =>
      if s.refused.contains p then (some "EACCES", s)
      else (none, { s with dirs := p :: s.dirs })
    writeFileSync := fun s p c =>
      if s.refused.contains p then (some "EACCES", s)
      else (none, { s with files := (p, c) :: s.files })
    openStream := fun s p =>
      if s.refused.contains p then (some "EACCES", s)
      else (none, { s with files := (p, .raw []) :: s.files })
    writeStream := fun s p b =>
      if s.refused.contains p then (some "EACCES", s)
      else (none, { s with files := (p, .raw b) :: s.files })
    readFile := fun s p => s.files.lookup p }

/-- A file system in memory with the directory `out` and nothing else. -/
def sampleFS : FS :=
  { σ := MemDisk, disk := memDisk, state := { dirs := ["out"], files := [], refused := [] } }

/-- Surroundings in which the connection opens after one 'connecting' update,
the identifier is unknown to the service and the network is down. -/
def unknownEnv : Env :=
  { checkAuth := none
    connectToWhatsApp := .ok ⟨false, [("creds.update", 3)]⟩
    emissions := [⟨"connection.update", ⟨some "connecting"⟩⟩,
      ⟨"connection.update", ⟨some "open"⟩⟩]
    jidNormalizedUser := fun j => j
    onWhatsApp := fun _ => .ok []
    fetchStatus := fun _ => .error "401"
    profilePictureUrl := fun _ _ => .error "401"
    now := "2024-05-01T10:00:00.000Z"
    pathJoin := fun dir name => dir ++ "/" ++ name
    net := fun _ _ => .error "ENOTFOUND" }

/-- The same surroundings with the identifier registered and both the status
and the picture private. -/
def privateEnv : Env :=
  { unknownEnv with
    onWhatsApp := fun j => .ok [⟨true, j⟩] }

/-- The same surroundings with a picture URL on offer (and the network still
down). -/
def pictureEnv : Env :=
  { privateEnv with
    profilePictureUrl := fun _ _ => .ok (some "https://pps.example/a.jpg") }

/-! ## The readiness wait -/

theorem runListeners_listeners (e : Emission) (ls : List (String × Listener))
    (st : WaitState) : (runListeners e ls st).listeners = st.listeners := by
  induction ls generalizing st with
  | nil => rfl
  | cons a ls ih =>
    obtain ⟨n, l⟩ := a
    rw [runListeners, ih]
    split
    · cases l with
      | foreign i => rfl
      | resolveOnOpen =>
        simp only [runListener]
        split <;> rfl
    · rfl

theorem emitAll_listeners (st : WaitState) (es : List Emission) :
    (emitAll st es).listeners = st.listeners := by
  induction es generalizing st with
  | nil => rfl
  | cons e es ih =>
    show (emitAll (emit st e) es).listeners = _
    rw [ih, emit, runListeners_listeners]

theorem runListeners_resolved (e : Emission) (ls : List (String × Listener))
    (st : WaitState) (h : st.promise = .resolved) :
    (runListeners e ls st).promise = .resolved := by
  induction ls generalizing st with
  | nil => exact h
  | cons a ls ih =>
    obtain ⟨n, l⟩ := a
    rw [runListeners]
    apply ih
    split
    · cases l
      · exact h
      · simp only [runListener]
        split
        · simp [h, PromiseState.resolve]
        · exact h
    · exact h

theorem emitAll_resolved (st : WaitState) (es : List Emission)
    (h : st.promise = .resolved) : (emitAll st es).promise = .resolved := by
  induction es generalizing st with
  | nil => exact h
  | cons e es ih =>
    show (emitAll (emit st e) es).promise = _
    exact ih _ (runListeners_resolved e _ st h)

theorem emitAll_append (st : WaitState) (es fs : List Emission) :
    emitAll st (es ++ fs) = emitAll (emitAll st es) fs := by
  simp [emitAll, List.foldl_append]

/-- Listeners of an emission that is no open 'connection.update' leave a pending
promise pending, as long as `resolveOnOpen` is registered under
'connection.update' only. -/
theorem runListeners_pending (e : Emission) (he : e.isOpen = false)
    (ls : List (String × Listener))
    (hls : ∀ n, (n, Listener.resolveOnOpen) ∈ ls → n = "connection.update")
    (st : WaitState) (h : st.promise = .pending) :
    (runListeners e ls st).promise = .pending := by
  induction ls generalizing st with
  | nil => exact h
  | cons a ls ih =>
    obtain ⟨n, l⟩ := a
    rw [runListeners]
    apply ih (fun m hm => hls m (List.mem_cons_of_mem _ hm))
    split
    · next hn =>
      cases l with
      | foreign i => exact h
      | resolveOnOpen =>
        have hn' : n = "connection.update" := hls n (List.mem_cons_self _ _)
        simp only [runListener]
        split
        · next hc =>
          exfalso
          have : e.isOpen = true := by
            simp [Emission.isOpen, ← hn, hn', hc]
          rw [he] at this
          exact Bool.noConfusion this
        · exact h
    · exact h

/-- An open 'connection.update' resolves the promise when `resolveOnOpen` is
registered under that name. -/
theorem runListeners_open (e : Emission) (he : e.isOpen = true)
    (ls : List (String × Listener))
    (hls : ("connection.update", Listener.resolveOnOpen) ∈ ls)
    (st : WaitState) (h : st.promise = .pending ∨ st.promise = .resolved) :
    (runListeners e ls st).promise = .resolved := by
  have hname : e.name = "connection.update" := by
    simp [Emission.isOpen] at he
    exact he.1
  have hconn : e.update.connection = some "open" := by
    simp [Emission.isOpen] at he
    exact he.2
  induction ls generalizing st with
  | nil => cases hls
  | cons a ls ih =>
    rw [runListeners]
    rcases List.mem_cons.mp hls with heq | hmem
    · subst heq
      apply runListeners_resolved
      simp only [hname, if_true, runListener, hconn]
      rcases h with h | h <;> simp [h, PromiseState.resolve]
    · obtain ⟨n, l⟩ := a
      apply ih hmem
      split
      · cases l with
        | foreign i => exact h
        | resolveOnOpen =>
          simp only [runListener, hconn, if_true]
          right
          rcases h with h | h <;> simp [h, PromiseState.resolve]
      · exact h

theorem foreignListeners_no_resolveOnOpen (sock : Sock) (n : String) :
    (n, Listener.resolveOnOpen) ∉ sock.foreignListeners := by
  simp [Sock.foreignListeners]

theorem waitForConnection_closed (sock : Sock) (h : sock.wsIsOpen = false) :
    waitForConnection sock =
      { promise := .pending,
        listeners := sock.foreignListeners ++ [("connection.update", .resolveOnOpen)] } := by
  simp [waitForConnection, h, WaitState.on]

theorem waitForConnection_open (sock : Sock) (h : sock.wsIsOpen = true) :
    waitForConnection sock =
      { promise := .resolved, listeners := sock.foreignListeners } := by
  simp [waitForConnection, h, PromiseState.resolve]

theorem emitAll_pending_closed (sock : Sock) (h : sock.wsIsOpen = false)
    (es : List Emission) (hes : ∀ e ∈ es, e.isOpen = false) :
    (emitAll (waitForConnection sock) es).promise = .pending := by
  have key : ∀ (es : List Emission) (st : WaitState),
      (∀ e ∈ es, e.isOpen = false) →
      st.listeners = sock.foreignListeners ++ [("connection.update", .resolveOnOpen)] →
      st.promise = .pending → (emitAll st es).promise = .pending := by
    intro es
    induction es with
    | nil => intro st _ _ hp; exact hp
    | cons e es ih =>
      intro st hes hl hp
      show (emitAll (emit st e) es).promise = _
      apply ih _ (fun x hx => hes x (List.mem_cons_of_mem _ hx))
      · rw [emit, runListeners_listeners, hl]
      · rw [emit]
        apply runListeners_pending e (hes e (List.mem_cons_self _ _)) _ _ st hp
        intro n hn
        rw [hl] at hn
        rcases List.mem_append.mp hn with hn | hn
        · exact absurd hn (foreignListeners_no_resolveOnOpen sock n)
        · simp at hn
          exact hn
  apply key es _ hes
  · rw [waitForConnection_closed sock h]
  · rw [waitForConnection_closed sock h]

/-- C1. For a handle whose `ws.isOpen` flag is true when `profile` builds the
promise of lines 19-24, the promise is resolved by its executor, before anything
is emitted on `sock.ev`, and it stays resolved whatever is emitted afterwards. -/
theorem wait_open_completes_without_event (sock : Sock) (h : sock.wsIsOpen = true) :
    (waitForConnection sock).promise = .resolved ∧
      ∀ es : List Emission, (emitAll (waitForConnection sock) es).promise = .resolved := by
  have h0 : (waitForConnection sock).promise = .resolved := by
    rw [waitForConnection_open sock h]
  exact ⟨h0, fun es => emitAll_resolved _ es h0⟩

theorem wait_open_completes_without_event_witness :
    (Sock.mk true [("creds.update", 3)]).wsIsOpen = true ∧
      (waitForConnection (Sock.mk true [("creds.update", 3)])).promise = .resolved ∧
      ∀ es : List Emission,
        (emitAll (waitForConnection (Sock.mk true [("creds.update", 3)])) es).promise
          = .resolved :=
  ⟨rfl, wait_open_completes_without_event (Sock.mk true [("creds.update", 3)]) rfl⟩

/-- C2. For a handle whose `ws.isOpen` flag is false when the promise is built:
after any run of emissions none of which is a 'connection.update' with
`connection === 'open'` the promise is still pending, and once such a run is
followed by a first open 'connection.update' the promise is resolved (and stays
so whatever follows). -/
theorem wait_closed_completes_at_first_open (sock : Sock) (h : sock.wsIsOpen = false)
    (pre : List Emission) (hpre : ∀ e ∈ pre, e.isOpen = false) :
    (emitAll (waitForConnection sock) pre).promise = .pending ∧
      ∀ (e : Emission) (post : List Emission), e.isOpen = true →
        (emitAll (waitForConnection sock) (pre ++ [e])).promise = .resolved ∧
        (emitAll (waitForConnection sock) (pre ++ e :: post)).promise = .resolved := by
  have hp := emitAll_pending_closed sock h pre hpre
  refine ⟨hp, fun e post he => ?_⟩
  have hl : (emitAll (waitForConnection sock) pre).listeners =
      sock.foreignListeners ++ [("connection.update", .resolveOnOpen)] := by
    rw [emitAll_listeners, waitForConnection_closed sock h]
  have h1 : (emit (emitAll (waitForConnection sock) pre) e).promise = .resolved := by
    rw [emit]
    apply runListeners_open e he _ _ _ (Or.inl hp)
    rw [hl]
    simp
  constructor
  · rw [emitAll_append]
    exact h1
  · rw [emitAll_append]
    show (emitAll (emit (emitAll (waitForConnection sock) pre) e) post).promise = _
    exact emitAll_resolved _ post h1

theorem wait_closed_completes_at_first_open_witness :
    (Sock.mk false [("creds.update", 3)]).wsIsOpen = false ∧
      (∀ e ∈ [Emission.mk "connection.update" ⟨some "connecting"⟩,
          Emission.mk "creds.update" ⟨some "open"⟩], e.isOpen = false) ∧
      (emitAll (waitForConnection (Sock.mk false [("creds.update", 3)]))
          [Emission.mk "connection.update" ⟨some "connecting"⟩,
            Emission.mk "creds.update" ⟨some "open"⟩]).promise = .pending ∧
      ∀ (e : Emission) (post : List Emission), e.isOpen = true →
        (emitAll (waitForConnection (Sock.mk false [("creds.update", 3)]))
          ([Emission.mk "connection.update" ⟨some "connecting"⟩,
            Emission.mk "creds.update" ⟨some "open"⟩] ++ [e])).promise = .resolved ∧
        (emitAll (waitForConnection (Sock.mk false [("creds.update", 3)]))
          ([Emission.mk "connection.update" ⟨some "connecting"⟩,
            Emission.mk "creds.update" ⟨some "open"⟩] ++ e :: post)).promise = .resolved :=
  ⟨rfl, by decide,
    wait_closed_completes_at_first_open (Sock.mk false [("creds.update", 3)]) rfl
      [Emission.mk "connection.update" ⟨some "connecting"⟩,
        Emission.mk "creds.update" ⟨some "open"⟩] (by decide)⟩

/-- C3, as stated, fails: on a handle whose `ws.isOpen` flag is true the executor
returns at line 20 and registers nothing; the registrations on `sock.ev` are the
ones the handle came with. -/
theorem wait_open_registers_nothing :
    (waitForConnection (Sock.mk true [("creds.update", 3)])).listeners
        = [("creds.update", Listener.foreign 3)] ∧
      (waitForConnection (Sock.mk true [("creds.update", 3)])).listeners.count
        ("connection.update", Listener.resolveOnOpen) = 0 := by
  decide

/-- C3, amended. One call of the readiness wait on a handle whose `ws.isOpen`
flag is false appends exactly one 'connection.update' listener to the
registrations of `sock.ev`, and on a handle whose flag is true it registers
none; in both cases no emission, before or after the promise is resolved,
removes a registration. -/
theorem wait_registers_one_listener_when_closed (sock : Sock) (es : List Emission) :
    (emitAll (waitForConnection sock) es).listeners =
      sock.foreignListeners ++
        (if sock.wsIsOpen then [] else [("connection.update", Listener.resolveOnOpen)]) := by
  rw [emitAll_listeners]
  cases h : sock.wsIsOpen
  · rw [waitForConnection_closed sock h]
    simp
  · rw [waitForConnection_open sock h]
    simp


/-! ## The file fetcher -/

theorem die_promise (e : Err) (s : DlState) : (DlState.die e s).promise = s.promise := by
  unfold DlState.die
  split <;> rfl

theorem die_closed (e : Err) (s : DlState) : (DlState.die e s).closed = s.closed := by
  unfold DlState.die
  split <;> rfl

theorem die_requests (e : Err) (s : DlState) : (DlState.die e s).requests = s.requests := by
  unfold DlState.die
  split <;> rfl

theorem openFile_promise (dest : String) (s : DlState) :
    (openFile dest s).promise = s.promise := by
  unfold openFile
  split
  · rfl
  · rw [die_promise]

theorem openFile_closed (dest : String) (s : DlState) :
    (openFile dest s).closed = s.closed := by
  unfold openFile
  split
  · rfl
  · rw [die_closed]

theorem openFile_requests (dest : String) (s : DlState) :
    (openFile dest s).requests = s.requests := by
  unfold openFile
  split
  · rfl
  · rw [die_requests]

theorem openFile_ok (dest : String) (s : DlState) (fs1 : FS)
    (h : s.fs.openStream dest = (none, fs1)) :
    openFile dest s = { s with opened := true, fs := fs1 } := by
  simp [openFile, h]

theorem pipeToFile_requests (dest : String) (res : Response) (s : DlState) :
    (pipeToFile dest res s).requests = s.requests := by
  unfold pipeToFile
  split
  · split
    · rfl
    · rw [die_requests]
  · rfl

theorem pipeToFile_ok (dest : String) (res : Response) (s : DlState) (fs2 : FS)
    (ho : s.opened = true) (hw : s.fs.writeStream dest res.body = (none, fs2)) :
    pipeToFile dest res s =
      { s with promise := s.promise.resolve, written := s.written ++ res.body,
               closed := true, fs := fs2 } := by
  simp [pipeToFile, ho, hw, onFinish, DlState.resolve]

/-- A pipe never rejects: after it the promise is as before or resolved. -/
theorem pipeToFile_promise (dest : String) (res : Response) (s : DlState) :
    (pipeToFile dest res s).promise = s.promise ∨
      (pipeToFile dest res s).promise = s.promise.resolve := by
  unfold pipeToFile
  split
  · split
    · right
      rfl
    · left
      rw [die_promise]
  · left
    rfl

/-- C4. When the reply to the GET for `url` is a response whose status is
neither 301 nor 302, with body `B`, and the write stream on `dest` opens and
takes the bytes: `downloadFile(url, dest)` issues that one GET and no other, the
bytes written through the stream are exactly `B`, the file system is the one the
disk leaves after writing `B` to `dest`, and the promise is resolved by the
'finish' listener (which also closed the file); nothing is left unhandled. -/
theorem downloadFile_direct_response (net : Net) (url dest : String) (fs fs1 fs2 : FS)
    (r : Response) (h0 : net 0 (some url) = .response r)
    (hs : r.statusCode ≠ 301 ∧ r.statusCode ≠ 302)
    (hopen : fs.openStream dest = (none, fs1))
    (hwrite : fs1.writeStream dest r.body = (none, fs2)) :
    (downloadFile net url dest fs).requests = [some url] ∧
      (downloadFile net url dest fs).written = r.body ∧
      (downloadFile net url dest fs).fs = fs2 ∧
      (downloadFile net url dest fs).closed = true ∧
      (downloadFile net url dest fs).promise = .resolved ∧
      (downloadFile net url dest fs).uncaught = none := by
  have hc : ¬ (r.statusCode = 302 ∨ r.statusCode = 301) := by
    rintro (h | h)
    · exact hs.2 h
    · exact hs.1 h
  simp only [downloadFile, httpsGet, h0, Option.isSome_some, if_true, hc, if_false]
  rw [openFile_ok dest _ fs1 hopen, pipeToFile_ok dest r _ fs2 rfl hwrite]
  simp [PromiseState.resolve]

theorem downloadFile_direct_response_witness :
    directNet 0 (some "https://pps.example/a.jpg") = .response ⟨200, none, [137, 80, 78]⟩ ∧
      ((200 : Nat) ≠ 301 ∧ (200 : Nat) ≠ 302) ∧
      (sampleFS.openStream "out/p.jpg").1 = none ∧
      ((sampleFS.openStream "out/p.jpg").2.writeStream "out/p.jpg" [137, 80, 78]).1 = none ∧
      (downloadFile directNet "https://pps.example/a.jpg" "out/p.jpg" sampleFS).requests
        = [some "https://pps.example/a.jpg"] ∧
      (downloadFile directNet "https://pps.example/a.jpg" "out/p.jpg" sampleFS).written
        = [137, 80, 78] ∧
      (downloadFile directNet "https://pps.example/a.jpg" "out/p.jpg" sampleFS).fs.readFile
        "out/p.jpg" = some (.raw [137, 80, 78]) ∧
      (downloadFile directNet "https://pps.example/a.jpg" "out/p.jpg" sampleFS).closed = true ∧
      (downloadFile directNet "https://pps.example/a.jpg" "out/p.jpg" sampleFS).promise
        = .resolved :=
  have h := downloadFile_direct_response directNet "https://pps.example/a.jpg" "out/p.jpg"
    sampleFS (sampleFS.openStream "out/p.jpg").2
    ((sampleFS.openStream "out/p.jpg").2.writeStream "out/p.jpg" [137, 80, 78]).2
    ⟨200, none, [137, 80, 78]⟩ rfl (by decide) rfl rfl
  ⟨rfl, by decide, rfl, rfl, h.1, h.2.1,
    (congrArg (fun f => FS.readFile f "out/p.jpg") h.2.2.1).trans rfl, h.2.2.2.1, h.2.2.2.2.1⟩

/-- C5. When the reply to the GET for `url` is a 301 or a 302 whose `Location`
header names a second URL, the reply to the GET for that URL is a response with
body `B2`, and the write stream on `dest` opens and takes the bytes:
`downloadFile(url, dest)` issues exactly these two GETs, the bytes written
through the stream are exactly `B2` (nothing of the body of the redirect
response), the file system is the one the disk leaves after writing `B2` to
`dest`, and the promise is resolved. -/
theorem downloadFile_one_redirect (net : Net) (url dest : String) (fs fs1 fs2 : FS)
    (r1 r2 : Response) (loc : String) (h0 : net 0 (some url) = .response r1)
    (hs : r1.statusCode = 301 ∨ r1.statusCode = 302) (hl : r1.location = some loc)
    (h1 : net 1 (some loc) = .response r2)
    (hopen : fs.openStream dest = (none, fs1))
    (hwrite : fs1.writeStream dest r2.body = (none, fs2)) :
    (downloadFile net url dest fs).requests = [some url, some loc] ∧
      (downloadFile net url dest fs).written = r2.body ∧
      (downloadFile net url dest fs).fs = fs2 ∧
      (downloadFile net url dest fs).closed = true ∧
      (downloadFile net url dest fs).promise = .resolved ∧
      (downloadFile net url dest fs).uncaught = none := by
  have hc : r1.statusCode = 302 ∨ r1.statusCode = 301 := hs.symm
  simp only [downloadFile, httpsGet, h0, Option.isSome_some, if_true, hc, hl, h1]
  rw [openFile_ok dest _ fs1 hopen, pipeToFile_ok dest r2 _ fs2 rfl hwrite]
  simp [PromiseState.resolve]

theorem downloadFile_one_redirect_witness :
    redirectNet 0 (some "https://pps.example/a.jpg")
        = .response ⟨302, some "https://cdn.example/pic", [60, 104]⟩ ∧
      ((302 : Nat) = 301 ∨ (302 : Nat) = 302) ∧
      redirectNet 1 (some "https://cdn.example/pic") = .response ⟨200, none, [255, 216, 255]⟩ ∧
      (sampleFS.openStream "out/p.jpg").1 = none ∧
      ((sampleFS.openStream "out/p.jpg").2.writeStream "out/p.jpg" [255, 216, 255]).1 = none ∧
      (downloadFile redirectNet "https://pps.example/a.jpg" "out/p.jpg" sampleFS).requests
        = [some "https://pps.example/a.jpg", some "https://cdn.example/pic"] ∧
      (downloadFile redirectNet "https://pps.example/a.jpg" "out/p.jpg" sampleFS).written
        = [255, 216, 255] ∧
      (downloadFile redirectNet "https://pps.example/a.jpg" "out/p.jpg" sampleFS).fs.readFile
        "out/p.jpg" = some (.raw [255, 216, 255]) ∧
      (downloadFile redirectNet "https://pps.example/a.jpg" "out/p.jpg" sampleFS).closed = true ∧
      (downloadFile redirectNet "https://pps.example/a.jpg" "out/p.jpg" sampleFS).promise
        = .resolved :=
  have h := downloadFile_one_redirect redirectNet "https://pps.example/a.jpg" "out/p.jpg"
    sampleFS (sampleFS.openStream "out/p.jpg").2
    ((sampleFS.openStream "out/p.jpg").2.writeStream "out/p.jpg" [255, 216, 255]).2
    ⟨302, some "https://cdn.example/pic", [60, 104]⟩ ⟨200, none, [255, 216, 255]⟩
    "https://cdn.example/pic" rfl (by decide) rfl (by decide) rfl rfl
  ⟨rfl, by decide, by decide, rfl, rfl, h.1, h.2.1,
    (congrArg (fun f => FS.readFile f "out/p.jpg") h.2.2.1).trans rfl, h.2.2.2.1, h.2.2.2.2.1⟩

/-- C6. Whatever the network replies and whatever the disk does, `downloadFile`
issues at most two GET requests. When the first reply is a 301 or 302 with a
`Location`, the reply to the GET for that `Location` is again a 301 or 302, and
the write stream on `dest` opens and takes the bytes, the requests are exactly
those two (no third one for the second `Location`), and the body of that second
response is what goes through the stream to `dest`; the promise is resolved. -/
theorem downloadFile_single_hop (net : Net) (url dest : String) (fs : FS) :
    (downloadFile net url dest fs).requests.length ≤ 2 ∧
      ∀ (r1 r2 : Response) (loc : String) (fs1 fs2 : FS),
        net 0 (some url) = .response r1 →
        (r1.statusCode = 301 ∨ r1.statusCode = 302) →
        r1.location = some loc →
        net 1 (some loc) = .response r2 →
        (r2.statusCode = 301 ∨ r2.statusCode = 302) →
        fs.openStream dest = (none, fs1) →
        fs1.writeStream dest r2.body = (none, fs2) →
        (downloadFile net url dest fs).requests = [some url, some loc] ∧
          (downloadFile net url dest fs).written = r2.body ∧
          (downloadFile net url dest fs).fs = fs2 ∧
          (downloadFile net url dest fs).promise = .resolved := by
  constructor
  · simp only [downloadFile, httpsGet]
    cases net 0 (some url) with
    | throws e => simp [DlState.reject]
    | error e => simp [DlState.reject, openFile_requests]
    | silent => simp [openFile_requests]
    | response r1 =>
      simp only [Option.isSome_some, if_true]
      by_cases hc : r1.statusCode = 302 ∨ r1.statusCode = 301
      · simp only [hc, if_true]
        cases net 1 r1.location with
        | throws e => simp [die_requests, openFile_requests]
        | error e => simp [DlState.reject, openFile_requests]
        | silent => simp [openFile_requests]
        | response r2 =>
          by_cases hl : r1.location.isSome = true
          · simp [hl, pipeToFile_requests, openFile_requests]
          · simp [hl, openFile_requests]
      · simp [hc, pipeToFile_requests, openFile_requests]
  · intro r1 r2 loc fs1 fs2 h0 hs hl h1 _ hopen hwrite
    have hc : r1.statusCode = 302 ∨ r1.statusCode = 301 := hs.symm
    simp only [downloadFile, httpsGet, h0, Option.isSome_some, if_true, hc, hl, h1]
    rw [openFile_ok dest _ fs1 hopen, pipeToFile_ok dest r2 _ fs2 rfl hwrite]
    simp [PromiseState.resolve]

theorem downloadFile_single_hop_witness :
    (downloadFile doubleRedirectNet "https://a.example/0" "out/p.jpg" sampleFS).requests
        = [some "https://a.example/0", some "https://a.example/1"] ∧
      (downloadFile doubleRedirectNet "https://a.example/0" "out/p.jpg" sampleFS).written
        = [2, 2] ∧
      (downloadFile doubleRedirectNet "https://a.example/0" "out/p.jpg" sampleFS).fs.readFile
        "out/p.jpg" = some (.raw [2, 2]) ∧
      (downloadFile doubleRedirectNet "https://a.example/0" "out/p.jpg" sampleFS).promise
        = .resolved :=
  have h := (downloadFile_single_hop doubleRedirectNet "https://a.example/0" "out/p.jpg"
    sampleFS).2
    ⟨301, some "https://a.example/1", [1]⟩ ⟨302, some "https://a.example/2", [2, 2]⟩
    "https://a.example/1" (sampleFS.openStream "out/p.jpg").2
    ((sampleFS.openStream "out/p.jpg").2.writeStream "out/p.jpg" [2, 2]).2
    rfl (by decide) rfl rfl (by decide) rfl rfl
  ⟨h.1, h.2.1, (congrArg (fun f => FS.readFile f "out/p.jpg") h.2.2.1).trans rfl, h.2.2.2⟩

/-- C7. When the GET for `url` emits 'error' with `e`, or its reply is a 301 or
302 and the GET for the `Location` emits 'error' with `e`, the promise of
`downloadFile` is rejected with `e`; `resolve` was never called (the 'finish'
listener, the only caller of `resolve`, did not run). -/
theorem downloadFile_transport_error (net : Net) (url dest : String) (fs : FS) (e : Err)
    (h : net 0 (some url) = .error e ∨
      ∃ r1 : Response, net 0 (some url) = .response r1 ∧
        (r1.statusCode = 301 ∨ r1.statusCode = 302) ∧ net 1 r1.location = .error e) :
    (downloadFile net url dest fs).promise = .rejected e ∧
      (downloadFile net url dest fs).promise ≠ .resolved ∧
      (downloadFile net url dest fs).closed = false := by
  rcases h with h0 | ⟨r1, h0, hs, h1⟩
  · simp [downloadFile, httpsGet, h0, DlState.reject, PromiseState.reject, openFile_promise,
      openFile_closed]
  · have hc : r1.statusCode = 302 ∨ r1.statusCode = 301 := hs.symm
    simp [downloadFile, httpsGet, h0, hc, h1, DlState.reject, PromiseState.reject,
      openFile_promise, openFile_closed]

theorem downloadFile_transport_error_witness :
    (redirectThenFailNet 0 (some "https://a.example/0") = .error "ECONNRESET" ∨
      ∃ r1 : Response, redirectThenFailNet 0 (some "https://a.example/0") = .response r1 ∧
        (r1.statusCode = 301 ∨ r1.statusCode = 302) ∧
        redirectThenFailNet 1 r1.location = .error "ECONNRESET") ∧
      (downloadFile redirectThenFailNet "https://a.example/0" "out/p.jpg" sampleFS).promise
        = .rejected "ECONNRESET" ∧
      (downloadFile redirectThenFailNet "https://a.example/0" "out/p.jpg" sampleFS).promise
        ≠ .resolved ∧
      (downloadFile redirectThenFailNet "https://a.example/0" "out/p.jpg" sampleFS).closed
        = false :=
  ⟨Or.inr ⟨⟨302, some "https://a.example/1", [1]⟩, rfl, Or.inr rfl, rfl⟩,
    downloadFile_transport_error redirectThenFailNet "https://a.example/0" "out/p.jpg" sampleFS
      "ECONNRESET" (Or.inr ⟨⟨302, some "https://a.example/1", [1]⟩, rfl, Or.inr rfl, rfl⟩)⟩

/-- A stream that cannot be opened: the 'error' it emits is handled by nothing,
the body of the response goes nowhere and the promise is never settled. -/
theorem downloadFile_stream_not_opened (net : Net) (url dest : String) (fs fs1 : FS)
    (r : Response) (e : Err) (h0 : net 0 (some url) = .response r)
    (hs : r.statusCode ≠ 301 ∧ r.statusCode ≠ 302)
    (hopen : fs.openStream dest = (some e, fs1)) :
    (downloadFile net url dest fs).promise = .pending ∧
      (downloadFile net url dest fs).uncaught = some e ∧
      (downloadFile net url dest fs).written = [] ∧
      (downloadFile net url dest fs).fs = fs1 := by
  have hc : ¬ (r.statusCode = 302 ∨ r.statusCode = 301) := by
    rintro (h | h)
    · exact hs.2 h
    · exact hs.1 h
  simp [downloadFile, httpsGet, h0, hc, openFile, hopen, DlState.die, pipeToFile]

/-- A `Location` that `https.get` refuses (a relative one, say): the exception
is thrown inside the response callback, nothing handles it, no second request is
issued and the promise is never settled. -/
theorem downloadFile_location_refused (net : Net) (url dest : String) (fs fs1 : FS)
    (r1 : Response) (e : Err) (h0 : net 0 (some url) = .response r1)
    (hs : r1.statusCode = 301 ∨ r1.statusCode = 302)
    (h1 : net 1 r1.location = .throws e)
    (hopen : fs.openStream dest = (none, fs1)) :
    (downloadFile net url dest fs).promise = .pending ∧
      (downloadFile net url dest fs).uncaught = some e ∧
      (downloadFile net url dest fs).requests = [some url] ∧
      (downloadFile net url dest fs).written = [] := by
  have hc : r1.statusCode = 302 ∨ r1.statusCode = 301 := hs.symm
  simp [downloadFile, httpsGet, h0, hc, h1, openFile, hopen, DlState.die]

/-- A redirect without `Location`: the second `https.get` is called without
target and registers no callback, so a response to it is piped nowhere and the
promise is never settled. -/
theorem downloadFile_location_absent (net : Net) (url dest : String) (fs fs1 : FS)
    (r1 r2 : Response) (h0 : net 0 (some url) = .response r1)
    (hs : r1.statusCode = 301 ∨ r1.statusCode = 302) (hl : r1.location = none)
    (h1 : net 1 none = .response r2)
    (hopen : fs.openStream dest = (none, fs1)) :
    (downloadFile net url dest fs).promise = .pending ∧
      (downloadFile net url dest fs).requests = [some url, none] ∧
      (downloadFile net url dest fs).written = [] ∧
      (downloadFile net url dest fs).fs = fs1 := by
  have hc : r1.statusCode = 302 ∨ r1.statusCode = 301 := hs.symm
  simp [downloadFile, httpsGet, h0, hc, hl, h1, openFile, hopen]

/-- When the promise of `downloadFile` is rejected, the file system is the one
it started on, or that one after the opening of the stream on `dest`. -/
theorem downloadFile_rejected_fs (net : Net) (url dest : String) (fs fs1 : FS) (err : Err)
    (hopen : fs.openStream dest = (none, fs1))
    (hrej : (downloadFile net url dest fs).promise = .rejected err) :
    (downloadFile net url dest fs).fs = fs ∨ (downloadFile net url dest fs).fs = fs1 := by
  revert hrej
  simp only [downloadFile, httpsGet]
  cases net 0 (some url) with
  | throws e =>
    intro _
    left
    rfl
  | error e =>
    intro _
    right
    simp [DlState.reject, openFile, hopen]
  | silent => simp [openFile, hopen]
  | response r1 =>
    simp only [Option.isSome_some, if_true]
    by_cases hc : r1.statusCode = 302 ∨ r1.statusCode = 301
    · simp only [hc, if_true]
      cases net 1 r1.location with
      | throws e => simp [openFile, hopen, DlState.die]
      | error e =>
        intro _
        right
        simp [DlState.reject, openFile, hopen]
      | silent => simp [openFile, hopen]
      | response r2 =>
        by_cases hl : r1.location.isSome = true
        · simp only [hl, if_true]
          intro hrej
          exfalso
          rcases pipeToFile_promise dest r2 _ with h | h <;>
            · rw [h] at hrej
              simp [openFile, hopen, PromiseState.resolve] at hrej
        · simp [hl, openFile, hopen]
    · simp only [hc, if_false]
      intro hrej
      exfalso
      rcases pipeToFile_promise dest r1 _ with h | h <;>
        · rw [h] at hrej
          simp [openFile, hopen, PromiseState.resolve] at hrej

/-! ## The command -/

theorem outputDir_of_nonempty (options : Options) (out : String)
    (hout : options.output = some out) (hne : out ≠ "") : options.outputDir = some out := by
  simp [Options.outputDir, hout, hne]

theorem profile_connected (env : Env) (number : String) (options : Options) (fs : FS)
    (sock : Sock) (hauth : env.checkAuth = none) (hconn : env.connectToWhatsApp = .ok sock)
    (hready : (emitAll (waitForConnection sock) env.emissions).promise = .resolved) :
    profile env number options fs = profileConnected env number options fs := by
  simp [profile, hauth, hconn, hready]

theorem ensureDir_calls (out : String) (fs fs1 : FS) (err : Option Err) (cs : List Call)
    (h : ensureDir out fs = (err, fs1, cs)) : cs = [] ∨ cs = [Call.mkdirSync out] := by
  unfold ensureDir at h
  split at h
  · left
    simp only [Prod.mk.injEq] at h
    exact h.2.2.symm
  · right
    simp only [Prod.mk.injEq] at h
    exact h.2.2.symm

/-- An exception of `fs.writeFileSync` at line 83 (the output path names an
existing file, say) lands in the `catch` of line 102: the run exits with 1 and
the download is never started. -/
theorem profile_json_write_throws (env : Env) (number : String) (options : Options)
    (fs fs1 fs2 : FS) (cs : List Call) (sock : Sock) (entry : ExistsEntry)
    (rest : List ExistsEntry) (out : String) (e : Err)
    (hauth : env.checkAuth = none) (hconn : env.connectToWhatsApp = .ok sock)
    (hready : (emitAll (waitForConnection sock) env.emissions).promise = .resolved)
    (hlist : env.onWhatsApp (env.jid number) = .ok (entry :: rest))
    (hex : entry.existsField = true)
    (hout : options.output = some out) (hne : out ≠ "")
    (hdir : ensureDir out fs = (none, fs1, cs))
    (hjson : fs1.writeFileSync (env.jsonPath out number)
      (.json (profileDataOf env number entry (statusOf (env.fetchStatus (env.jid number)))
        (profilePicUrlOf (env.profilePictureUrl (env.jid number) "image")))) = (some e, fs2)) :
    (profile env number options fs).exit = some 1 ∧ (profile env number options fs).fs = fs2 := by
  rw [profile_connected env number options fs sock hauth hconn hready]
  simp [profileConnected, hlist, hex, saveOutput,
    outputDir_of_nonempty options out hout hne, hdir, hjson]

/-- C8. When the run reaches the existence check and `sock.onWhatsApp(jid)`
yields a list that is empty or whose first entry has a falsy `exists` field,
`profile` ends the process with status 1, whatever `options.output` is; the file
system is left exactly as it was found (no file written, no directory created)
and `onWhatsApp` is the only call made: neither `fetchStatus` nor
`profilePictureUrl` (nor `downloadFile`) is called. -/
theorem profile_unknown_identifier (env : Env) (number : String) (options : Options)
    (fs : FS) (sock : Sock) (entries : List ExistsEntry)
    (hauth : env.checkAuth = none) (hconn : env.connectToWhatsApp = .ok sock)
    (hready : (emitAll (waitForConnection sock) env.emissions).promise = .resolved)
    (hlist : env.onWhatsApp (env.jid number) = .ok entries)
    (hno : ∀ entry, entries.head? = some entry → entry.existsField = false) :
    profile env number options fs =
      { exit := some 1, fs := fs, calls := [Call.onWhatsApp (env.jid number)] } := by
  rw [profile_connected env number options fs sock hauth hconn hready]
  simp only [profileConnected, hlist]
  cases hh : entries.head? with
  | none => rfl
  | some entry => simp [hno entry hh]

theorem profile_unknown_identifier_witness :
    unknownEnv.checkAuth = none ∧
      unknownEnv.connectToWhatsApp = .ok ⟨false, [("creds.update", 3)]⟩ ∧
      (emitAll (waitForConnection ⟨false, [("creds.update", 3)]⟩) unknownEnv.emissions).promise
        = .resolved ∧
      unknownEnv.onWhatsApp (unknownEnv.jid "4915112345678") = .ok [] ∧
      (∀ entry, ([] : List ExistsEntry).head? = some entry → entry.existsField = false) ∧
      profile unknownEnv "4915112345678" ⟨some "out"⟩ sampleFS =
        { exit := some 1, fs := sampleFS,
          calls := [Call.onWhatsApp (unknownEnv.jid "4915112345678")] } :=
  ⟨rfl, rfl, by decide, rfl, by simp,
    profile_unknown_identifier unknownEnv "4915112345678" ⟨some "out"⟩ sampleFS
      ⟨false, [("creds.update", 3)]⟩ [] rfl rfl (by decide) rfl (by simp)⟩

/-- C9. When the identifier is registered, `options.output` is set (a non-empty
string `out`), both `sock.fetchStatus` and `sock.profilePictureUrl` throw, and
neither line 71 (the directory `out` is there or `mkdirSync` makes it) nor the
`writeFileSync` of line 83 throws, `profile` goes on to the end: it exits with
status 0 and nothing is left unhandled; the one file it writes is
`profile-<number>.json` in `out`, with a record whose `status` and
`profilePicUrl` are `null`, and the file system it leaves is the one that write
left (no `profile-<number>.jpg` is opened or written); the calls are
`onWhatsApp`, `fetchStatus`, `profilePictureUrl`, `mkdirSync` when the directory
was missing, and that `writeFileSync`, with no call of `downloadFile`. -/
theorem profile_private_profile (env : Env) (number : String) (options : Options)
    (fs fs1 fs2 : FS) (cs : List Call) (sock : Sock) (entry : ExistsEntry)
    (rest : List ExistsEntry) (out : String) (e1 e2 : Err)
    (hauth : env.checkAuth = none) (hconn : env.connectToWhatsApp = .ok sock)
    (hready : (emitAll (waitForConnection sock) env.emissions).promise = .resolved)
    (hlist : env.onWhatsApp (env.jid number) = .ok (entry :: rest))
    (hex : entry.existsField = true)
    (hout : options.output = some out) (hne : out ≠ "")
    (hstatus : env.fetchStatus (env.jid number) = .error e1)
    (hpic : env.profilePictureUrl (env.jid number) "image" = .error e2)
    (hdir : ensureDir out fs = (none, fs1, cs))
    (hjson : fs1.writeFileSync (env.jsonPath out number)
      (.json { number := number, jid := entry.jid, status := .null,
               profilePicUrl := .null, fetchedAt := env.now }) = (none, fs2)) :
    profile env number options fs =
        { exit := some 0, uncaught := none, fs := fs2,
          calls := [Call.onWhatsApp (env.jid number), Call.fetchStatus (env.jid number),
              Call.profilePictureUrl (env.jid number) "image"] ++ cs ++
            [Call.writeFileSync (env.jsonPath out number)
              (.json { number := number, jid := entry.jid, status := .null,
                       profilePicUrl := .null, fetchedAt := env.now })] } ∧
      (cs = [] ∨ cs = [Call.mkdirSync out]) := by
  refine ⟨?_, ensureDir_calls out fs fs1 none cs hdir⟩
  rw [profile_connected env number options fs sock hauth hconn hready]
  simp [profileConnected, hlist, hex, hstatus, hpic, statusOf, profilePicUrlOf, saveOutput,
    outputDir_of_nonempty options out hout hne, hdir, profileDataOf, hjson, savePicture]

theorem profile_private_profile_witness :
    privateEnv.checkAuth = none ∧
      (emitAll (waitForConnection ⟨false, [("creds.update", 3)]⟩) privateEnv.emissions).promise
        = .resolved ∧
      privateEnv.fetchStatus (privateEnv.jid "4915112345678") = .error "401" ∧
      privateEnv.profilePictureUrl (privateEnv.jid "4915112345678") "image" = .error "401" ∧
      (ensureDir "dump" sampleFS).1 = none ∧
      (((ensureDir "dump" sampleFS).2.1).writeFileSync
        (privateEnv.jsonPath "dump" "4915112345678")
        (.json { number := "4915112345678"
                 jid := "4915112345678@s.whatsapp.net"
                 status := .null, profilePicUrl := .null
                 fetchedAt := "2024-05-01T10:00:00.000Z" })).1 = none ∧
      (profile privateEnv "4915112345678" ⟨some "dump"⟩ sampleFS).exit = some 0 ∧
      (profile privateEnv "4915112345678" ⟨some "dump"⟩ sampleFS).calls =
        [Call.onWhatsApp "4915112345678@s.whatsapp.net",
          Call.fetchStatus "4915112345678@s.whatsapp.net",
          Call.profilePictureUrl "4915112345678@s.whatsapp.net" "image",
          Call.mkdirSync "dump",
          Call.writeFileSync "dump/profile-4915112345678.json"
            (.json { number := "4915112345678"
                     jid := "4915112345678@s.whatsapp.net"
                     status := .null, profilePicUrl := .null
                     fetchedAt := "2024-05-01T10:00:00.000Z" })] ∧
      (profile privateEnv "4915112345678" ⟨some "dump"⟩ sampleFS).fs.readFile
          "dump/profile-4915112345678.json" =
        some (.json { number := "4915112345678"
                      jid := "4915112345678@s.whatsapp.net"
                      status := .null, profilePicUrl := .null
                      fetchedAt := "2024-05-01T10:00:00.000Z" }) ∧
      (profile privateEnv "4915112345678" ⟨some "dump"⟩ sampleFS).fs.readFile
          "dump/profile-4915112345678.jpg" = none :=
  have h := (profile_private_profile privateEnv "4915112345678" ⟨some "dump"⟩ sampleFS
    (ensureDir "dump" sampleFS).2.1
    (((ensureDir "dump" sampleFS).2.1).writeFileSync
      (privateEnv.jsonPath "dump" "4915112345678")
      (.json { number := "4915112345678"
               jid := "4915112345678@s.whatsapp.net"
               status := .null, profilePicUrl := .null
               fetchedAt := "2024-05-01T10:00:00.000Z" })).2
    [Call.mkdirSync "dump"]
    ⟨false, [("creds.update", 3)]⟩ ⟨true, "4915112345678@s.whatsapp.net"⟩ [] "dump"
    "401" "401" rfl rfl (by decide) rfl rfl rfl (by decide) rfl rfl rfl rfl).1
  ⟨rfl, by decide, rfl, rfl, rfl, rfl, congrArg Run.exit h,
    (congrArg Run.calls h).trans (by decide),
    (congrArg (fun r => FS.readFile r.fs "dump/profile-4915112345678.json") h).trans rfl,
    (congrArg (fun r => FS.readFile r.fs "dump/profile-4915112345678.jpg") h).trans rfl⟩

/-- C10. When the identifier is registered, `options.output` is set (a non-empty
string `out`), `sock.profilePictureUrl` yields a non-empty URL, lines 71 and 83
do not throw, the stream for the picture can be opened and the promise of
`downloadFile` for that URL is rejected, `profile` still exits with status 0
and nothing is left unhandled. The `writeFileSync` of `profile-<number>.json`,
with the obtained `profilePicUrl` in its record, comes before the download, and
the file system the run leaves is the one that write left, changed at most by
the opening of the stream for `profile-<number>.jpg`: nothing touches the JSON
file afterwards, so what a reader finds there after the write (and after that
opening) is what the run leaves there. The download is the last call made. -/
theorem profile_download_failure_not_fatal (env : Env) (number : String)
    (options : Options) (fs fs1 fs2 fs3 : FS) (cs : List Call) (sock : Sock)
    (entry : ExistsEntry) (rest : List ExistsEntry) (out url : String) (err : Err)
    (hauth : env.checkAuth = none) (hconn : env.connectToWhatsApp = .ok sock)
    (hready : (emitAll (waitForConnection sock) env.emissions).promise = .resolved)
    (hlist : env.onWhatsApp (env.jid number) = .ok (entry :: rest))
    (hex : entry.existsField = true)
    (hout : options.output = some out) (hne : out ≠ "")
    (hpic : env.profilePictureUrl (env.jid number) "image" = .ok (some url))
    (hurl : url ≠ "")
    (hdir : ensureDir out fs = (none, fs1, cs))
    (hjson : fs1.writeFileSync (env.jsonPath out number)
      (.json { number := number, jid := entry.jid,
               status := statusOf (env.fetchStatus (env.jid number)),
               profilePicUrl := .str url, fetchedAt := env.now }) = (none, fs2))
    (hopen : fs2.openStream (env.picPath out number) = (none, fs3))
    (hdl : (downloadFile env.net url (env.picPath out number) fs2).promise = .rejected err) :
    (profile env number options fs).exit = some 0 ∧
      (profile env number options fs).uncaught = none ∧
      ((profile env number options fs).fs = fs2 ∨ (profile env number options fs).fs = fs3) ∧
      (∀ c : Option FileContent, fs2.readFile (env.jsonPath out number) = c →
        fs3.readFile (env.jsonPath out number) = c →
        (profile env number options fs).fs.readFile (env.jsonPath out number) = c) ∧
      (profile env number options fs).calls =
        [Call.onWhatsApp (env.jid number), Call.fetchStatus (env.jid number),
            Call.profilePictureUrl (env.jid number) "image"] ++ cs ++
          [Call.writeFileSync (env.jsonPath out number)
              (.json { number := number, jid := entry.jid,
                       status := statusOf (env.fetchStatus (env.jid number)),
                       profilePicUrl := .str url, fetchedAt := env.now }),
            Call.downloadFile url (env.picPath out number)] := by
  have hrun : profile env number options fs =
      { exit := some 0, uncaught := none
        fs := (downloadFile env.net url (env.picPath out number) fs2).fs
        calls := [Call.onWhatsApp (env.jid number), Call.fetchStatus (env.jid number),
            Call.profilePictureUrl (env.jid number) "image"] ++ cs ++
          [Call.writeFileSync (env.jsonPath out number)
              (.json { number := number, jid := entry.jid,
                       status := statusOf (env.fetchStatus (env.jid number)),
                       profilePicUrl := .str url, fetchedAt := env.now }),
            Call.downloadFile url (env.picPath out number)] } := by
    rw [profile_connected env number options fs sock hauth hconn hready]
    simp [profileConnected, hlist, hex, hpic, profilePicUrlOf, saveOutput,
      outputDir_of_nonempty options out hout hne, hdir, profileDataOf, hjson, savePicture,
      hurl, hdl]
  have hfs := downloadFile_rejected_fs env.net url _ fs2 fs3 err hopen hdl
  rw [hrun]
  refine ⟨rfl, rfl, hfs, ?_, rfl⟩
  intro c h2 h3
  show (downloadFile env.net url (env.picPath out number) fs2).fs.readFile _ = c
  rcases hfs with h | h
  · rw [h]
    exact h2
  · rw [h]
    exact h3

theorem profile_download_failure_not_fatal_witness :
    pictureEnv.profilePictureUrl (pictureEnv.jid "4915112345678") "image"
        = .ok (some "https://pps.example/a.jpg") ∧
      (ensureDir "dump" sampleFS).1 = none ∧
      (downloadFile pictureEnv.net "https://pps.example/a.jpg"
        (pictureEnv.picPath "dump" "4915112345678")
        (((ensureDir "dump" sampleFS).2.1).writeFileSync
          (pictureEnv.jsonPath "dump" "4915112345678")
          (.json { number := "4915112345678"
                   jid := "4915112345678@s.whatsapp.net"
                   status := .null
                   profilePicUrl := .str "https://pps.example/a.jpg"
                   fetchedAt := "2024-05-01T10:00:00.000Z" })).2).promise
        = .rejected "ENOTFOUND" ∧
      (profile pictureEnv "4915112345678" ⟨some "dump"⟩ sampleFS).exit = some 0 ∧
      (profile pictureEnv "4915112345678" ⟨some "dump"⟩ sampleFS).uncaught = none ∧
      (profile pictureEnv "4915112345678" ⟨some "dump"⟩ sampleFS).fs.readFile
          "dump/profile-4915112345678.json" =
        some (.json { number := "4915112345678"
                      jid := "4915112345678@s.whatsapp.net"
                      status := .null
                      profilePicUrl := .str "https://pps.example/a.jpg"
                      fetchedAt := "2024-05-01T10:00:00.000Z" }) :=
  have h := profile_download_failure_not_fatal pictureEnv "4915112345678" ⟨some "dump"⟩
    sampleFS (ensureDir "dump" sampleFS).2.1
    (((ensureDir "dump" sampleFS).2.1).writeFileSync
      (pictureEnv.jsonPath "dump" "4915112345678")
      (.json { number := "4915112345678"
               jid := "4915112345678@s.whatsapp.net"
               status := .null
               profilePicUrl := .str "https://pps.example/a.jpg"
               fetchedAt := "2024-05-01T10:00:00.000Z" })).2
    ((((ensureDir "dump" sampleFS).2.1).writeFileSync
      (pictureEnv.jsonPath "dump" "4915112345678")
      (.json { number := "4915112345678"
               jid := "4915112345678@s.whatsapp.net"
               status := .null
               profilePicUrl := .str "https://pps.example/a.jpg"
               fetchedAt := "2024-05-01T10:00:00.000Z" })).2.openStream
      (pictureEnv.picPath "dump" "4915112345678")).2
    [Call.mkdirSync "dump"]
    ⟨false, [("creds.update", 3)]⟩ ⟨true, "4915112345678@s.whatsapp.net"⟩ []
    "dump" "https://pps.example/a.jpg" "ENOTFOUND" rfl rfl (by decide) rfl rfl rfl
    (by decide) rfl (by decide) rfl rfl rfl rfl
  ⟨rfl, rfl, rfl, h.1, h.2.1, rfl⟩

end WaSonar
